import Mathlib

/-!
Shallow embedding of the harsark preemptive scheduler core.

Source layout:
* `src/lib.rs` — `KernelError` enum and its `Debug` impl, `config` constants.
* `src/macros.rs` — the `priv_execute!` privilege gate.
* `src/kernel/task_management.rs` — the lock-guarded variant (`TM` below):
  `preempt`, `schedule`, `task_exit`, `block_tasks`, `unblock_tasks`,
  `release`, `create_task`, `start_kernel`, globals `os_curr_task_id`,
  `os_next_task_id`.
* `src/kernel/tasks.rs` — the raw-static variant (`TK` below): `preempt`,
  `context_switch`, `schedule`, `start_kernel`, `task_exit`, and the rest.

The `Scheduler` struct and its methods live in `crate::system::task_manager`,
which is not part of the sources; those parts are modelled from the spec and
carry a doc comment saying so.

Machine integers: all bitmasks are Rust `u32` values, embedded as `Nat`
kept below `2 ^ 32` by explicit masking with `mask32`.

Hardware effects (the PendSV request, the SVC trap, the SysTick timer) are
embedded as ghost counters / flags in the state, so that "raises PendSV"
becomes "`pendsv_count` grows by one" and "no PendSV request" becomes
"`pendsv_count` unchanged".
-/

namespace Harsark

/-- All-ones 32-bit mask (`u32::MAX`). -/
def mask32 : Nat := 2 ^ 32 - 1

/-- Rust `!m` on `u32`: bitwise complement within 32 bits. -/
def not32 (m : Nat) : Nat := (m &&& mask32) ^^^ mask32

/-- `KernelError` as declared in `src/lib.rs` (`pub mod errors`).
Variants exactly as in the source: `BufferOverflow`, `NotFound`,
`StackTooSmall`, `DoesNotExist`, `LimitExceeded`. -/
inductive KernelError
  | BufferOverflow
  | NotFound
  | StackTooSmall
  | DoesNotExist
  | LimitExceeded
deriving DecidableEq, Repr

/-- The `Debug` impl of `KernelError` from `src/lib.rs`: each variant is
rendered as its own name. -/
def KernelError.debugFmt : KernelError → String
  | .DoesNotExist => "DoesNotExist"
  | .BufferOverflow => "BufferOverflow"
  | .NotFound => "NotFound"
  | .StackTooSmall => "StackTooSmall"
  | .LimitExceeded => "LimitExceeded"

/-- The name of the error value returned by the `priv_execute!` macro in
`src/macros.rs` line 53: `Err(KernelError::AccessDenied)`.  Note that the
`KernelError` enum declared in `src/lib.rs` has no such variant, so error
values are embedded here by their variant name. -/
def privExecuteErrorName : String := "AccessDenied"

/-- The `priv_execute!` macro from `src/macros.rs`: run the body only in
privileged context, otherwise return the access-denied error. -/
def priv_execute (priv : Bool) (body : Except String α) : Except String α :=
  if priv then body else Except.error privExecuteErrorName

/-- Modelled from the spec: the minimum stack length able to hold an initial
register frame (§4.1; the concrete architecture-specific value is not fixed
by the spec, only that shorter stacks are rejected with `StackTooSmall`). -/
def minStackFrameSize : Nat := 32

/-- The `Scheduler` struct from `crate::system::task_manager` (declared
outside the given sources).  Modelled from the spec: §3 SchedulerState holds
`curr_tid`, the `active_tasks` and blocked-set bitmasks, the
preemptive/running/started flags, plus the fixed-capacity TCB table (§2
TaskRegistry; a TCB is an opaque saved stack pointer, embedded as a `Nat`;
`none` marks a free slot). -/
structure Scheduler where
  curr_tid : Nat
  active_tasks : Nat
  blocked_tasks : Nat
  task_control_blocks : List (Option Nat)
  is_preemptive : Bool
  is_running : Bool
  started : Bool
deriving DecidableEq, Repr

/-- Base-2 logarithm by structural recursion on a fuel bound (exact whenever
`m < 2 ^ fuel`); the fuel keeps the function kernel-reducible so concrete
scheduler runs evaluate. -/
def log2_fuel : Nat → Nat → Nat
  | 0, _ => 0
  | fuel + 1, m => if m ≥ 2 then log2_fuel fuel (m / 2) + 1 else 0

/-- Modelled from the spec: §4.2 next-task selection — among the bits set in
the mask, choose the numerically highest index, i.e. the base-2 logarithm of
the mask (and `0` on the empty mask: the idle task, whose bit is permanently
set, so the empty case is structurally prevented).  Masks are `u32`, hence
fuel 32 is exact. -/
def select_next (mask : Nat) : Nat := log2_fuel 32 mask

/-- `Scheduler::get_next_tid` (outside the given sources).  Modelled from the
spec: the selection runs over the tasks that are active and not blocked
(§3: `active_tasks` are "tasks not blocked"; §2: SchedulerState keeps
"bitmasks for active and blocked tasks"). -/
def Scheduler.get_next_tid (s : Scheduler) : Nat :=
  select_next (s.active_tasks &&& not32 s.blocked_tasks)

/-- `Scheduler::block_tasks` (outside the given sources).  Modelled from the
spec: blocking marks the given tasks as blocked, removing them from the
effective ready set used by selection (§4.5; §8 round-trip: a later unblock
of the same mask restores the original `active_tasks`, so the `active_tasks`
field itself is untouched and the blocked set carries the information). -/
def Scheduler.block_tasks (s : Scheduler) (tasks_mask : Nat) : Scheduler :=
  { s with blocked_tasks := (s.blocked_tasks ||| tasks_mask) &&& mask32 }

/-- `Scheduler::unblock_tasks` (outside the given sources).  Modelled from
the spec: unblocking clears the given bits from the blocked set, making
those tasks eligible again (§4.5) — it does not set `active_tasks` bits, so
a task whose active bit was cleared by `task_exit` stays ineligible (§8:
exited tasks are not re-releasable by `unblock_tasks`). -/
def Scheduler.unblock_tasks (s : Scheduler) (tasks_mask : Nat) : Scheduler :=
  { s with blocked_tasks := s.blocked_tasks &&& not32 tasks_mask }

/-- `Scheduler::release` (outside the given sources).  Modelled from the
spec: §4.5 "sets the given bits in `active_tasks`, making those tasks
eligible for selection on the next scheduling decision". -/
def Scheduler.release (s : Scheduler) (tasks_mask : Nat) : Scheduler :=
  { s with active_tasks := (s.active_tasks ||| tasks_mask) &&& mask32 }

/-- `Scheduler::start_kernel` (outside the given sources).  Modelled from the
spec: the kernel start routine flips the scheduler into its running state
(§3 `is_running`: "whether the scheduler has completed its one-time startup
transition"). -/
def Scheduler.start_kernel (s : Scheduler) : Scheduler :=
  { s with is_running := true }

/-- `Scheduler::create_task` (outside the given sources).  Modelled from the
spec: §4.1 — reject stacks too short for an initial frame with
`StackTooSmall`; reject an out-of-range or occupied priority slot with the
capacity-class error `LimitExceeded`; otherwise write the TCB into the slot
and set the task's bit in `active_tasks`.  The stack buffer is embedded by
its length, the synthesized TCB by that length value. -/
def Scheduler.create_task (s : Scheduler) (priority stackLen : Nat) :
    Except String Scheduler :=
  if stackLen < minStackFrameSize then
    Except.error KernelError.StackTooSmall.debugFmt
  else if h : priority < s.task_control_blocks.length then
    match s.task_control_blocks.get ⟨priority, h⟩ with
    | some _ => Except.error KernelError.LimitExceeded.debugFmt
    | none =>
      Except.ok { s with
        task_control_blocks := s.task_control_blocks.set priority (some stackLen),
        active_tasks := (s.active_tasks ||| (1 <<< priority)) &&& mask32 }
  else
    Except.error KernelError.LimitExceeded.debugFmt

/-!
`TM`: the `src/kernel/task_management.rs` variant.  Its state is the
`Scheduler` singleton `all_tasks` plus the globals `os_curr_task_id` and
`os_next_task_id` (lines 19-20), with ghost counters for the PendSV and SVC
hardware requests.
-/

/-- State touched by `src/kernel/task_management.rs`: the `all_tasks`
scheduler, the two published task-id globals, and ghost event counters for
`SCB::set_pendsv()` and `svc_call()`. -/
structure TMState where
  sched : Scheduler
  os_curr_task_id : Nat
  os_next_task_id : Nat
  pendsv_count : Nat
  svc_count : Nat
deriving DecidableEq, Repr

namespace TM

/-- `preempt` from `src/kernel/task_management.rs` lines 69-83: compute the
next tid; if it differs from `curr_tid`, publish outgoing and incoming ids,
raise PendSV, and set `curr_tid` to the incoming id; otherwise do nothing. -/
def preempt (s : TMState) : TMState :=
  if s.sched.curr_tid ≠ s.sched.get_next_tid then
    { s with
      os_curr_task_id := s.sched.curr_tid,
      os_next_task_id := s.sched.get_next_tid,
      pendsv_count := s.pendsv_count + 1,
      sched := { s.sched with curr_tid := s.sched.get_next_tid } }
  else s

/-- `svc_call` from `crate::utils::arch` (outside the given sources).
Modelled from the spec: raising the SVC software trap is a pure request — it
mutates no scheduler state (§4.3); embedded as a ghost counter bump. -/
def svc_call (s : TMState) : TMState :=
  { s with svc_count := s.svc_count + 1 }

/-- `schedule` from `src/kernel/task_management.rs` lines 60-65: privileged
callers run `preempt()` directly, unprivileged callers raise the SVC trap. -/
def schedule (priv : Bool) (s : TMState) : TMState :=
  if priv then preempt s else svc_call s

/-- The SVC exception handler (in `crate::interrupt_handlers`, outside the
given sources).  Modelled from the spec: "the handler re-invokes the same
scheduling decision" in privileged context (§4.3). -/
def svc_handler (s : TMState) : TMState := schedule true s

/-- `get_curr_tid` from `src/kernel/task_management.rs` lines 86-90. -/
def get_curr_tid (s : TMState) : Nat := s.sched.curr_tid

/-- `block_tasks` from `src/kernel/task_management.rs` lines 93-95. -/
def block_tasks (tasks_mask : Nat) (s : TMState) : TMState :=
  { s with sched := s.sched.block_tasks tasks_mask }

/-- `unblock_tasks` from `src/kernel/task_management.rs` lines 98-100. -/
def unblock_tasks (tasks_mask : Nat) (s : TMState) : TMState :=
  { s with sched := s.sched.unblock_tasks tasks_mask }

/-- `release` from `src/kernel/task_management.rs` lines 113-115. -/
def release (tasks_mask : Nat) (s : TMState) : TMState :=
  { s with sched := s.sched.release tasks_mask }

/-- The first critical section of `task_exit` (lines 105-108): clear the
calling task's bit in `active_tasks` (`active_tasks &= !(1 << curr_tid)`). -/
def exit_clear (s : TMState) : TMState :=
  { s with sched := { s.sched with
      active_tasks := s.sched.active_tasks &&& not32 (1 <<< s.sched.curr_tid) } }

/-- `task_exit` from `src/kernel/task_management.rs` lines 103-110: clear the
caller's active bit, then call `schedule()`. -/
def task_exit (priv : Bool) (s : TMState) : TMState :=
  schedule priv (exit_clear s)

/-- `create_task` from `src/kernel/task_management.rs` lines 40-54: the
registration body behind the `priv_execute!` gate. -/
def create_task (priv : Bool) (priority stackLen : Nat) (s : TMState) :
    Except String Unit × TMState :=
  match priv_execute priv (s.sched.create_task priority stackLen) with
  | Except.ok sched' => (Except.ok (), { s with sched := sched' })
  | Except.error e => (Except.error e, s)

/-- `start_kernel` from `src/kernel/task_management.rs` lines 33-37, whose
body is `loop { preempt(); }` with no break or return: run up to `fuel`
loop iterations; `some` would be the state in which the function returned
to its caller, `none` means it is still looping. -/
def start_kernel_fuel : Nat → TMState → Option TMState
  | 0, _ => none
  | fuel + 1, s => start_kernel_fuel fuel (preempt s)

/-- The runtime task-lifecycle operations of `task_management.rs`
(task creation is excluded: per the spec it is boot-time only, a non-goal
after start — §1 Non-goals, §4.1). -/
inductive Op
  | scheduleOp (priv : Bool)
  | preemptOp
  | blockOp (tasks_mask : Nat)
  | unblockOp (tasks_mask : Nat)
  | releaseOp (tasks_mask : Nat)
  | taskExitOp (priv : Bool)
deriving DecidableEq, Repr

/-- Interpret one lifecycle operation. -/
def step : Op → TMState → TMState
  | Op.scheduleOp priv, s => schedule priv s
  | Op.preemptOp, s => preempt s
  | Op.blockOp m, s => block_tasks m s
  | Op.unblockOp m, s => unblock_tasks m s
  | Op.releaseOp m, s => release m s
  | Op.taskExitOp priv, s => task_exit priv s

/-- Run a sequence of lifecycle operations, first one first. -/
def run (ops : List Op) (s : TMState) : TMState :=
  ops.foldl (fun st op => step op st) s

/-- `true` iff the operation is not a `release` whose mask holds bit `t`
(used to state which operation sequences cannot resurrect an exited task). -/
def Op.avoids (t : Nat) : Op → Bool
  | Op.releaseOp m => !(m.testBit t)
  | _ => true

end TM

/-!
`TK`: the `src/kernel/tasks.rs` variant.  Its state is the raw static
`all_tasks` scheduler plus the Mutex-guarded cells `os_curr_task_id` and
`os_next_task_id` (lines 22-23), with ghost fields for PendSV, SVC, the
SysTick timer, and a switch counter recording each `context_switch` call.
-/

/-- State touched by `src/kernel/tasks.rs`.  `switch_count` is a ghost
counter of `context_switch` invocations; `timer_armed` is a ghost flag for
the SysTick setup done by `start_kernel`. -/
structure TKState where
  sched : Scheduler
  os_curr_task_id : Nat
  os_next_task_id : Nat
  pendsv_count : Nat
  svc_count : Nat
  switch_count : Nat
  timer_armed : Bool
deriving DecidableEq, Repr

namespace TK

/-- `context_switch` from `src/kernel/tasks.rs` lines 82-96: if the
scheduler has `started`, record the outgoing id in `os_curr_task_id`,
otherwise mark it started (the first dispatch has no outgoing task); then
set `curr_tid` to the incoming id, publish it in `os_next_task_id`, and
raise PendSV. -/
def context_switch (curr next : Nat) (s : TKState) : TKState :=
  let s1 :=
    if s.sched.started then { s with os_curr_task_id := curr }
    else { s with sched := { s.sched with started := true } }
  { s1 with
    sched := { s1.sched with curr_tid := next },
    os_next_task_id := next,
    pendsv_count := s1.pendsv_count + 1,
    switch_count := s1.switch_count + 1 }

/-- `preempt` from `src/kernel/tasks.rs` lines 68-80: only when
`is_running` and the computed next tid differs from `curr_tid` is
`context_switch` called; the function always returns `Ok(())`. -/
def preempt (s : TKState) : Except String Unit × TKState :=
  if s.sched.is_running then
    if s.sched.curr_tid ≠ s.sched.get_next_tid then
      (Except.ok (), context_switch s.sched.curr_tid s.sched.get_next_tid s)
    else (Except.ok (), s)
  else (Except.ok (), s)

/-- `svc_call` for this variant (same arch routine; outside the given
sources).  Modelled from the spec: a pure trap request, ghost-counted. -/
def svc_call (s : TKState) : TKState :=
  { s with svc_count := s.svc_count + 1 }

/-- `schedule` from `src/kernel/tasks.rs` lines 60-66: privileged callers
run `preempt()` (result discarded), unprivileged callers raise SVC. -/
def schedule (priv : Bool) (s : TKState) : TKState :=
  if priv then (preempt s).2 else svc_call s

/-- `start_kernel` from `src/kernel/tasks.rs` lines 31-42: behind
`priv_execute!`, arm the SysTick timer, run `Scheduler::start_kernel`
(sets `is_running`), then return the result of `preempt()` to the caller. -/
def start_kernel (priv : Bool) (s : TKState) : Except String Unit × TKState :=
  if priv then
    preempt { s with
      timer_armed := true,
      sched := s.sched.start_kernel }
  else (Except.error privExecuteErrorName, s)

/-- `create_task` from `src/kernel/tasks.rs` lines 44-58. -/
def create_task (priv : Bool) (priority stackLen : Nat) (s : TKState) :
    Except String Unit × TKState :=
  match priv_execute priv (s.sched.create_task priority stackLen) with
  | Except.ok sched' => (Except.ok (), { s with sched := sched' })
  | Except.error e => (Except.error e, s)

/-- `block_tasks` from `src/kernel/tasks.rs` lines 109-113. -/
def block_tasks (tasks_mask : Nat) (s : TKState) : TKState :=
  { s with sched := s.sched.block_tasks tasks_mask }

/-- `unblock_tasks` from `src/kernel/tasks.rs` lines 115-119. -/
def unblock_tasks (tasks_mask : Nat) (s : TKState) : TKState :=
  { s with sched := s.sched.unblock_tasks tasks_mask }

/-- `release` from `src/kernel/tasks.rs` lines 129-131. -/
def release (tasks_mask : Nat) (s : TKState) : TKState :=
  { s with sched := s.sched.release tasks_mask }

/-- `task_exit` from `src/kernel/tasks.rs` lines 121-127: clear the calling
task's bit in `active_tasks`, then call `schedule()`. -/
def task_exit (priv : Bool) (s : TKState) : TKState :=
  schedule priv { s with sched := { s.sched with
    active_tasks := s.sched.active_tasks &&& not32 (1 <<< s.sched.curr_tid) } }

/-- `enable_preemption` from `src/kernel/tasks.rs` lines 133-135. -/
def enable_preemption (s : TKState) : TKState :=
  { s with sched := { s.sched with is_preemptive := true } }

/-- `disable_preemption` from `src/kernel/tasks.rs` lines 137-141. -/
def disable_preemption (s : TKState) : TKState :=
  { s with sched := { s.sched with is_preemptive := false } }

/-- The public operations of the `tasks.rs` variant, for reasoning about
reachable operation sequences. -/
inductive Op
  | scheduleOp (priv : Bool)
  | preemptOp
  | startKernelOp (priv : Bool)
  | createTaskOp (priv : Bool) (priority stackLen : Nat)
  | blockOp (tasks_mask : Nat)
  | unblockOp (tasks_mask : Nat)
  | releaseOp (tasks_mask : Nat)
  | taskExitOp (priv : Bool)
  | enablePreemptionOp
  | disablePreemptionOp
deriving DecidableEq, Repr

/-- Interpret one operation (returned `Result` values are discarded, as at
every call site inside the kernel). -/
def step : Op → TKState → TKState
  | Op.scheduleOp priv, s => schedule priv s
  | Op.preemptOp, s => (preempt s).2
  | Op.startKernelOp priv, s => (start_kernel priv s).2
  | Op.createTaskOp priv p l, s => (create_task priv p l s).2
  | Op.blockOp m, s => block_tasks m s
  | Op.unblockOp m, s => unblock_tasks m s
  | Op.releaseOp m, s => release m s
  | Op.taskExitOp priv, s => task_exit priv s
  | Op.enablePreemptionOp, s => enable_preemption s
  | Op.disablePreemptionOp, s => disable_preemption s

/-- Run a sequence of operations, first one first. -/
def run (ops : List Op) (s : TKState) : TKState :=
  ops.foldl (fun st op => step op st) s

/-- The state right after `init(is_preemptive)` (`tasks.rs` lines 26-28;
`Scheduler::init` is outside the given sources).  Modelled from the spec:
init creates the always-active idle task at priority 0 (§6), the scheduler
is not yet running or started, no events have fired. -/
def init_state (is_preemptive : Bool) : TKState :=
  { sched :=
      { curr_tid := 0,
        active_tasks := 1,
        blocked_tasks := 0,
        task_control_blocks := List.replicate 32 none,
        is_preemptive := is_preemptive,
        is_running := false,
        started := false },
    os_curr_task_id := 0,
    os_next_task_id := 0,
    pendsv_count := 0,
    svc_count := 0,
    switch_count := 0,
    timer_armed := false }

end TK

/-!
Concrete sample states used to instantiate the theorems below.
-/

/-- A running TM state in which the selection differs from the current task:
task 0 is running while tasks 0 and 2 are active (`active_tasks = 0b101`). -/
def tmDemoSwitch : TMState :=
  { sched :=
      { curr_tid := 0, active_tasks := 5, blocked_tasks := 0,
        task_control_blocks := [], is_preemptive := true,
        is_running := true, started := true },
    os_curr_task_id := 0, os_next_task_id := 0,
    pendsv_count := 0, svc_count := 0 }

/-- A TM state in which only the idle task is active and running, so the
selection re-picks the current task. -/
def tmDemoIdle : TMState :=
  { sched :=
      { curr_tid := 0, active_tasks := 1, blocked_tasks := 0,
        task_control_blocks := [], is_preemptive := true,
        is_running := true, started := true },
    os_curr_task_id := 0, os_next_task_id := 0,
    pendsv_count := 0, svc_count := 0 }

/-- A TM state with task 2 running and tasks 0, 1, 2 active
(`active_tasks = 0b111`). -/
def tmDemoExit : TMState :=
  { sched :=
      { curr_tid := 2, active_tasks := 7, blocked_tasks := 0,
        task_control_blocks := [], is_preemptive := true,
        is_running := true, started := true },
    os_curr_task_id := 0, os_next_task_id := 0,
    pendsv_count := 0, svc_count := 0 }

/-- A TM state with task 3 running and tasks 0 and 3 active
(`active_tasks = 0b1001`). -/
def tmDemoTaskThree : TMState :=
  { sched :=
      { curr_tid := 3, active_tasks := 9, blocked_tasks := 0,
        task_control_blocks := [], is_preemptive := true,
        is_running := true, started := true },
    os_curr_task_id := 0, os_next_task_id := 0,
    pendsv_count := 0, svc_count := 0 }

/-- A TK state before `start_kernel`: `is_running = false` although a
higher-priority task (task 2) is active than the current one (task 0). -/
def tkDemoNotRunning : TKState :=
  { sched :=
      { curr_tid := 0, active_tasks := 5, blocked_tasks := 0,
        task_control_blocks := [], is_preemptive := true,
        is_running := false, started := false },
    os_curr_task_id := 0, os_next_task_id := 0,
    pendsv_count := 0, svc_count := 0, switch_count := 0,
    timer_armed := false }

/-!
Helper lemmas: the fuel-bounded logarithm computes the highest set bit, and
basic facts about 32-bit masking.
-/

/-- For a nonzero `m < 2 ^ fuel`, the fuel-bounded logarithm is a lower
power bound: `2 ^ log2_fuel fuel m ≤ m`. -/
theorem log2_fuel_le {fuel m : Nat} (hm : m ≠ 0) (h : m < 2 ^ fuel) :
    2 ^ log2_fuel fuel m ≤ m := by
  induction fuel generalizing m with
  | zero => simp only [pow_zero] at h; omega
  | succ fuel ih =>
    unfold log2_fuel
    by_cases h2 : m ≥ 2
    · rw [if_pos h2]
      have hp : 2 ^ (fuel + 1) = 2 ^ fuel * 2 := Nat.pow_succ ..
      have hdiv : m / 2 < 2 ^ fuel := by omega
      have hne : m / 2 ≠ 0 := by omega
      have hrec := ih hne hdiv
      rw [Nat.pow_succ]
      omega
    · rw [if_neg h2]; simp only [pow_zero]; omega

/-- For `m < 2 ^ fuel`, the fuel-bounded logarithm is an upper power bound:
`m < 2 ^ (log2_fuel fuel m + 1)`. -/
theorem lt_log2_fuel_succ {fuel m : Nat} (h : m < 2 ^ fuel) :
    m < 2 ^ (log2_fuel fuel m + 1) := by
  induction fuel generalizing m with
  | zero =>
    simp only [pow_zero] at h
    unfold log2_fuel
    simp only [zero_add, pow_one]
    omega
  | succ fuel ih =>
    unfold log2_fuel
    by_cases h2 : m ≥ 2
    · rw [if_pos h2]
      have hp : 2 ^ (fuel + 1) = 2 ^ fuel * 2 := Nat.pow_succ ..
      have hdiv : m / 2 < 2 ^ fuel := by omega
      have hrec := ih hdiv
      rw [Nat.pow_succ]
      omega
    · rw [if_neg h2]
      simp only [zero_add, pow_one]
      omega

/-- The bit at the selected index is set (nonzero 32-bit masks). -/
theorem testBit_select_next {m : Nat} (hm : m ≠ 0) (h32 : m < 2 ^ 32) :
    Nat.testBit m (select_next m) = true := by
  have h1 : 2 ^ select_next m ≤ m := log2_fuel_le hm h32
  have h2 : m < 2 ^ (select_next m + 1) := lt_log2_fuel_succ h32
  have hdiv : m / 2 ^ select_next m = 1 := by
    apply Nat.div_eq_of_lt_le
    · simpa using h1
    · rw [Nat.pow_succ] at h2; omega
  rw [Nat.testBit_to_div_mod, hdiv]
  decide

/-- Every bit above the selected index is clear (32-bit masks). -/
theorem testBit_gt_select_next {m i : Nat} (h32 : m < 2 ^ 32)
    (hi : select_next m < i) : Nat.testBit m i = false := by
  apply Nat.testBit_lt_two_pow
  calc m < 2 ^ (select_next m + 1) := lt_log2_fuel_succ h32
    _ ≤ 2 ^ i := Nat.pow_le_pow_right (by norm_num) hi

/-- The selection on the empty mask is the idle task id 0. -/
theorem select_next_zero : select_next 0 = 0 := rfl

/-- Bit view of the 32-bit complement. -/
theorem testBit_not32 (b i : Nat) :
    (not32 b).testBit i = (decide (i < 32) && !(b.testBit i)) := by
  unfold not32 mask32
  rw [Nat.testBit_xor, Nat.testBit_land, Nat.testBit_two_pow_sub_one]
  cases hb : b.testBit i <;> cases hi : decide (i < 32) <;> simp [hb, hi]

/-- A `u32` value has no bit at index 32 or above. -/
theorem testBit_ge_32 {m i : Nat} (hm : m < 2 ^ 32) (hi : 32 ≤ i) :
    m.testBit i = false :=
  Nat.testBit_lt_two_pow
    (lt_of_lt_of_le hm (Nat.pow_le_pow_right (by norm_num) hi))

/-- The 32-bit complement is a `u32` value. -/
theorem not32_lt (b : Nat) : not32 b < 2 ^ 32 := by
  unfold not32 mask32
  exact Nat.xor_lt_two_pow
    (lt_of_le_of_lt Nat.and_le_right (by norm_num)) (by norm_num)

/-- The effective ready mask used by the selection is a `u32` value. -/
theorem eff_mask_lt (s : Scheduler) :
    s.active_tasks &&& not32 s.blocked_tasks < 2 ^ 32 :=
  lt_of_le_of_lt Nat.and_le_right (not32_lt _)

/-- If the selection returns a nonzero id, that id's bit is set in the
mask. -/
theorem selected_bit_set {m t : Nat} (h32 : m < 2 ^ 32) (ht : t ≠ 0)
    (hsel : select_next m = t) : m.testBit t = true := by
  by_cases h0 : m = 0
  · subst h0; rw [select_next_zero] at hsel; exact absurd hsel.symm ht
  · rw [← hsel]; exact testBit_select_next h0 h32

/-- A nonzero task id whose bit is absent from `active_tasks` is never the
selection result. -/
theorem get_next_tid_ne {s : Scheduler} {t : Nat} (ht : t ≠ 0)
    (hbit : s.active_tasks.testBit t = false) : s.get_next_tid ≠ t := by
  intro heq
  unfold Scheduler.get_next_tid at heq
  have hset := selected_bit_set (eff_mask_lt s) ht heq
  rw [Nat.testBit_land, hbit] at hset
  simp at hset

/-- C1: for every non-empty 32-bit `active_tasks` bitmask the next-task
selection returns the task id equal to the highest set bit index — the
returned id's bit is set and every higher bit is clear; for the idle-only
mask `0b1` it returns the idle id 0; and `get_next_tid` is the pure
function `select_next` applied to the scheduler's ready mask, with no side
effect on any state. -/
theorem c1_select_next_highest_bit (m : Nat) (hm : m ≠ 0) (h32 : m < 2 ^ 32) :
    Nat.testBit m (select_next m) = true
    ∧ (∀ i, select_next m < i → Nat.testBit m i = false)
    ∧ select_next 1 = 0
    ∧ (∀ s : Scheduler,
        s.get_next_tid = select_next (s.active_tasks &&& not32 s.blocked_tasks)) :=
  ⟨testBit_select_next hm h32, fun _ hi => testBit_gt_select_next h32 hi,
   rfl, fun _ => rfl⟩

/-- C1 witness: the theorem instantiated at the concrete mask `0b101`. -/
theorem c1_select_next_highest_bit_witness :
    ((5 : Nat) ≠ 0 ∧ (5 : Nat) < 2 ^ 32)
    ∧ (Nat.testBit 5 (select_next 5) = true
       ∧ (∀ i, select_next 5 < i → Nat.testBit 5 i = false)
       ∧ select_next 1 = 0
       ∧ (∀ s : Scheduler,
           s.get_next_tid = select_next (s.active_tasks &&& not32 s.blocked_tasks))) :=
  ⟨⟨by decide, by decide⟩, c1_select_next_highest_bit 5 (by decide) (by decide)⟩

/-!
Frame lemmas for the `task_management.rs` operations.
-/

/-- `TM.preempt` touches only `curr_tid`, the published ids and the PendSV
counter: both task bitmasks and the SVC counter are unchanged. -/
theorem tm_preempt_frame (s : TMState) :
    (TM.preempt s).sched.active_tasks = s.sched.active_tasks
    ∧ (TM.preempt s).sched.blocked_tasks = s.sched.blocked_tasks
    ∧ (TM.preempt s).svc_count = s.svc_count := by
  unfold TM.preempt
  split <;> simp

/-- `TM.schedule` leaves both task bitmasks unchanged. -/
theorem tm_schedule_frame (priv : Bool) (s : TMState) :
    (TM.schedule priv s).sched.active_tasks = s.sched.active_tasks
    ∧ (TM.schedule priv s).sched.blocked_tasks = s.sched.blocked_tasks := by
  unfold TM.schedule TM.svc_call
  cases priv
  · simp
  · simpa using ⟨(tm_preempt_frame s).1, (tm_preempt_frame s).2.1⟩

/-- C2: whenever the computed next tid differs from `curr_tid`, `preempt()`
(task_management.rs) records the outgoing `curr_tid` in `os_curr_task_id`,
publishes the incoming tid in `os_next_task_id`, updates the scheduler's
`curr_tid` to it, raises exactly one PendSV request — and changes nothing
else, so outgoing and incoming ids are exactly the two values published at
switch time. -/
theorem c2_preempt_publishes_switch (s : TMState)
    (h : s.sched.curr_tid ≠ s.sched.get_next_tid) :
    (TM.preempt s).os_curr_task_id = s.sched.curr_tid
    ∧ (TM.preempt s).sched.curr_tid = s.sched.get_next_tid
    ∧ (TM.preempt s).os_next_task_id = s.sched.get_next_tid
    ∧ (TM.preempt s).pendsv_count = s.pendsv_count + 1
    ∧ TM.preempt s =
        { s with
          os_curr_task_id := s.sched.curr_tid,
          os_next_task_id := s.sched.get_next_tid,
          pendsv_count := s.pendsv_count + 1,
          sched := { s.sched with curr_tid := s.sched.get_next_tid } } := by
  have hkey : TM.preempt s =
      { s with
        os_curr_task_id := s.sched.curr_tid,
        os_next_task_id := s.sched.get_next_tid,
        pendsv_count := s.pendsv_count + 1,
        sched := { s.sched with curr_tid := s.sched.get_next_tid } } := by
    unfold TM.preempt
    rw [if_pos h]
  rw [hkey]
  exact ⟨rfl, rfl, rfl, rfl, rfl⟩

/-- C2 witness: the theorem instantiated at `tmDemoSwitch`, where task 0 is
current but task 2 is the highest active bit. -/
theorem c2_preempt_publishes_switch_witness :
    tmDemoSwitch.sched.curr_tid ≠ tmDemoSwitch.sched.get_next_tid
    ∧ ((TM.preempt tmDemoSwitch).os_curr_task_id = tmDemoSwitch.sched.curr_tid
       ∧ (TM.preempt tmDemoSwitch).sched.curr_tid = tmDemoSwitch.sched.get_next_tid
       ∧ (TM.preempt tmDemoSwitch).os_next_task_id = tmDemoSwitch.sched.get_next_tid
       ∧ (TM.preempt tmDemoSwitch).pendsv_count = tmDemoSwitch.pendsv_count + 1
       ∧ TM.preempt tmDemoSwitch =
           { tmDemoSwitch with
             os_curr_task_id := tmDemoSwitch.sched.curr_tid,
             os_next_task_id := tmDemoSwitch.sched.get_next_tid,
             pendsv_count := tmDemoSwitch.pendsv_count + 1,
             sched := { tmDemoSwitch.sched with
                        curr_tid := tmDemoSwitch.sched.get_next_tid } }) :=
  ⟨by decide, c2_preempt_publishes_switch tmDemoSwitch (by decide)⟩

/-- C3: when the computed next tid equals `curr_tid`, `preempt()`
(task_management.rs) is a complete no-op — in particular no PendSV request
is raised and `curr_tid` is unchanged. -/
theorem c3_preempt_no_spurious_switch (s : TMState)
    (h : s.sched.curr_tid = s.sched.get_next_tid) :
    TM.preempt s = s
    ∧ (TM.preempt s).pendsv_count = s.pendsv_count
    ∧ (TM.preempt s).sched.curr_tid = s.sched.curr_tid
    ∧ (∀ s2 : TKState, s2.sched.curr_tid = s2.sched.get_next_tid →
        (TK.preempt s2).2 = s2 ∧ (TK.preempt s2).1 = Except.ok ()) := by
  have hkey : TM.preempt s = s := by
    unfold TM.preempt
    rw [if_neg (by simpa using h)]
  refine ⟨hkey, by rw [hkey], by rw [hkey], fun s2 h2 => ?_⟩
  have hk2 : TK.preempt s2 = (Except.ok (), s2) := by
    unfold TK.preempt
    split
    · rw [if_neg (by simp [h2])]
    · rfl
  rw [hk2]
  exact ⟨rfl, rfl⟩

/-- C3 witness: the theorem instantiated at `tmDemoIdle`, the idle-only
state, where the selection re-picks the current task. -/
theorem c3_preempt_no_spurious_switch_witness :
    tmDemoIdle.sched.curr_tid = tmDemoIdle.sched.get_next_tid
    ∧ (TM.preempt tmDemoIdle = tmDemoIdle
       ∧ (TM.preempt tmDemoIdle).pendsv_count = tmDemoIdle.pendsv_count
       ∧ (TM.preempt tmDemoIdle).sched.curr_tid = tmDemoIdle.sched.curr_tid
       ∧ (∀ s2 : TKState, s2.sched.curr_tid = s2.sched.get_next_tid →
           (TK.preempt s2).2 = s2 ∧ (TK.preempt s2).1 = Except.ok ())) :=
  ⟨by decide, c3_preempt_no_spurious_switch tmDemoIdle (by decide)⟩

/-- C4: `schedule()` in privileged context is exactly a direct `preempt()`;
in unprivileged context it mutates no scheduler state at all — it only
raises the SVC trap — and the SVC handler then produces, in privileged
context, exactly the state a direct `preempt()` would have produced. -/
theorem c4_schedule_privilege_gate (s : TMState) :
    TM.schedule true s = TM.preempt s
    ∧ TM.schedule false s = { s with svc_count := s.svc_count + 1 }
    ∧ (∀ s2 : TKState, TK.schedule true s2 = (TK.preempt s2).2
        ∧ TK.schedule false s2 = { s2 with svc_count := s2.svc_count + 1 })
    ∧ TM.svc_handler (TM.schedule false s) =
        { TM.preempt s with svc_count := s.svc_count + 1 } := by
  refine ⟨rfl, rfl, fun _ => ⟨rfl, rfl⟩, ?_⟩
  show TM.preempt { s with svc_count := s.svc_count + 1 } =
    { TM.preempt s with svc_count := s.svc_count + 1 }
  unfold TM.preempt
  split <;> rfl

/-- C5: an unprivileged call to a privileged-only operation returns the
access-denied error synchronously and leaves the task registry and the
scheduler state untouched (the returned state is exactly the input state),
both for `create_task` (task_management.rs) and for the tasks.rs
`start_kernel`; however, the access-denied value is not a member of the
`KernelError` type declared in src/lib.rs — no declared variant bears the
name that `priv_execute!` returns. -/
theorem c5_access_denied_not_declared :
    (∀ (priority stackLen : Nat) (s : TMState),
        TM.create_task false priority stackLen s
          = (Except.error privExecuteErrorName, s))
    ∧ (∀ s : TKState,
        TK.start_kernel false s = (Except.error privExecuteErrorName, s))
    ∧ (∀ e : KernelError, e.debugFmt ≠ privExecuteErrorName) := by
  refine ⟨fun _ _ _ => rfl, fun _ => rfl, fun e => ?_⟩
  cases e <;> decide

/-- C6: `task_exit()` called by the running task `t = curr_tid` clears
exactly `t`'s bit in `active_tasks` — every other bit is unchanged — and
then calls `schedule()`. -/
theorem c6_task_exit_clears_own_bit (priv : Bool) (s : TMState)
    (ha : s.sched.active_tasks < 2 ^ 32) :
    (TM.task_exit priv s).sched.active_tasks.testBit s.sched.curr_tid = false
    ∧ (∀ i, i ≠ s.sched.curr_tid →
        (TM.task_exit priv s).sched.active_tasks.testBit i
          = s.sched.active_tasks.testBit i)
    ∧ TM.task_exit priv s = TM.schedule priv (TM.exit_clear s) := by
  have hact : (TM.task_exit priv s).sched.active_tasks
      = s.sched.active_tasks &&& not32 (1 <<< s.sched.curr_tid) := by
    unfold TM.task_exit
    rw [(tm_schedule_frame priv (TM.exit_clear s)).1]
    rfl
  refine ⟨?_, ?_, rfl⟩
  · rw [hact, Nat.testBit_land, testBit_not32, Nat.one_shiftLeft,
      Nat.testBit_two_pow]
    simp
  · intro i hi
    rw [hact, Nat.testBit_land, testBit_not32, Nat.one_shiftLeft,
      Nat.testBit_two_pow]
    by_cases h32 : i < 32
    · simp [h32, Ne.symm hi]
    · have hz : s.sched.active_tasks.testBit i = false :=
        testBit_ge_32 ha (by omega)
      simp [h32, hz]

/-- C6 witness: the theorem instantiated at `tmDemoExit`, where task 2 is
running with `active_tasks = 0b111`. -/
theorem c6_task_exit_clears_own_bit_witness :
    tmDemoExit.sched.active_tasks < 2 ^ 32
    ∧ ((TM.task_exit true tmDemoExit).sched.active_tasks.testBit
         tmDemoExit.sched.curr_tid = false
       ∧ (∀ i, i ≠ tmDemoExit.sched.curr_tid →
           (TM.task_exit true tmDemoExit).sched.active_tasks.testBit i
             = tmDemoExit.sched.active_tasks.testBit i)
       ∧ TM.task_exit true tmDemoExit
           = TM.schedule true (TM.exit_clear tmDemoExit)) :=
  ⟨by decide, c6_task_exit_clears_own_bit true tmDemoExit (by decide)⟩

/-- C10: in the tasks.rs variant, while `is_running` is false `preempt()`
changes nothing — whatever the computed next tid is — returning `Ok(())`
with the state (including `curr_tid`, both published ids, and the PendSV
counter) exactly as it was; hence a privileged `schedule()` is a no-op
before the kernel is started. -/
theorem c10_preempt_noop_before_start (s : TKState)
    (h : s.sched.is_running = false) :
    (TK.preempt s).2 = s
    ∧ (TK.preempt s).1 = Except.ok ()
    ∧ TK.schedule true s = s := by
  have hp : TK.preempt s = (Except.ok (), s) := by
    unfold TK.preempt
    rw [h]
    simp
  refine ⟨by rw [hp], by rw [hp], ?_⟩
  show (TK.preempt s).2 = s
  rw [hp]

/-- C10 witness: the theorem instantiated at `tkDemoNotRunning`, where the
selection would pick task 2 over the current task 0, yet nothing happens. -/
theorem c10_preempt_noop_before_start_witness :
    tkDemoNotRunning.sched.is_running = false
    ∧ ((TK.preempt tkDemoNotRunning).2 = tkDemoNotRunning
       ∧ (TK.preempt tkDemoNotRunning).1 = Except.ok ()
       ∧ TK.schedule true tkDemoNotRunning = tkDemoNotRunning) :=
  ⟨by decide, c10_preempt_noop_before_start tkDemoNotRunning (by decide)⟩

/-!
C7: permanence of `task_exit`.
-/

/-- A cleared `active_tasks` bit stays cleared across any single lifecycle
operation that does not `release` that bit. -/
theorem tm_step_keeps_bit_clear {t : Nat} (op : TM.Op) (s : TMState)
    (hop : op.avoids t = true)
    (h : s.sched.active_tasks.testBit t = false) :
    (TM.step op s).sched.active_tasks.testBit t = false := by
  cases op with
  | scheduleOp priv =>
    show (TM.schedule priv s).sched.active_tasks.testBit t = false
    rw [(tm_schedule_frame priv s).1]; exact h
  | preemptOp =>
    show (TM.preempt s).sched.active_tasks.testBit t = false
    rw [(tm_preempt_frame s).1]; exact h
  | blockOp m => exact h
  | unblockOp m => exact h
  | releaseOp m =>
    have hm : m.testBit t = false := by simpa [TM.Op.avoids] using hop
    show ((s.sched.active_tasks ||| m) &&& mask32).testBit t = false
    rw [Nat.testBit_land, Nat.testBit_lor, h, hm]
    simp
  | taskExitOp priv =>
    show (TM.task_exit priv s).sched.active_tasks.testBit t = false
    unfold TM.task_exit
    rw [(tm_schedule_frame priv (TM.exit_clear s)).1]
    show ((s.sched.active_tasks &&& not32 (1 <<< s.sched.curr_tid)).testBit t) = false
    rw [Nat.testBit_land, h]
    simp

/-- A cleared `active_tasks` bit stays cleared across any sequence of
lifecycle operations none of which releases that bit. -/
theorem tm_run_keeps_bit_clear {t : Nat} (ops : List TM.Op) (s : TMState)
    (hops : ops.all (TM.Op.avoids t) = true)
    (h : s.sched.active_tasks.testBit t = false) :
    (TM.run ops s).sched.active_tasks.testBit t = false := by
  induction ops generalizing s with
  | nil => exact h
  | cons op rest ih =>
    rw [List.all_cons, Bool.and_eq_true] at hops
    show (TM.run rest (TM.step op s)).sched.active_tasks.testBit t = false
    exact ih (TM.step op s) hops.2 (tm_step_keeps_bit_clear op s hops.1 h)

/-- C7 (amended): after the running task `t ≠ 0` calls `task_exit()`, its
`active_tasks` bit stays cleared under every subsequent sequence of
lifecycle operations — `block_tasks`, `unblock_tasks`, `schedule`,
`preempt`, `task_exit`, and even `release` calls whose mask does not
contain `t` — and no scheduling decision along the way ever selects `t`
again.  (`unblock_tasks` only manipulates the blocked mask, so
`unblock_tasks({t})` cannot resurrect an exited task; a `release` whose
mask contains `t`, by contrast, does re-activate it — see the
counterexample.) -/
theorem c7_exited_never_selected (t : Nat) (priv : Bool) (s : TMState)
    (ops : List TM.Op) (ht : t ≠ 0) (hcurr : s.sched.curr_tid = t)
    (hops : ops.all (TM.Op.avoids t) = true) :
    (TM.run ops (TM.task_exit priv s)).sched.active_tasks.testBit t = false
    ∧ (TM.run ops (TM.task_exit priv s)).sched.get_next_tid ≠ t := by
  have h0 : (TM.task_exit priv s).sched.active_tasks.testBit t = false := by
    unfold TM.task_exit
    rw [(tm_schedule_frame priv (TM.exit_clear s)).1]
    show ((s.sched.active_tasks &&& not32 (1 <<< s.sched.curr_tid)).testBit t) = false
    rw [hcurr, Nat.testBit_land, testBit_not32, Nat.one_shiftLeft,
      Nat.testBit_two_pow]
    simp
  have hrun := tm_run_keeps_bit_clear ops _ hops h0
  exact ⟨hrun, get_next_tid_ne ht hrun⟩

/-- C7 witness: task 3 exits from `tmDemoTaskThree`; after an unblock of
its bit, a block, a release of a different bit and a preempt, its bit is
still clear and the selection still avoids it. -/
theorem c7_exited_never_selected_witness :
    ((3 : Nat) ≠ 0
     ∧ tmDemoTaskThree.sched.curr_tid = 3
     ∧ ([TM.Op.unblockOp 8, TM.Op.blockOp 2, TM.Op.releaseOp 2,
         TM.Op.preemptOp].all (TM.Op.avoids 3) = true))
    ∧ ((TM.run [TM.Op.unblockOp 8, TM.Op.blockOp 2, TM.Op.releaseOp 2,
          TM.Op.preemptOp]
          (TM.task_exit true tmDemoTaskThree)).sched.active_tasks.testBit 3
            = false
       ∧ (TM.run [TM.Op.unblockOp 8, TM.Op.blockOp 2, TM.Op.releaseOp 2,
            TM.Op.preemptOp]
            (TM.task_exit true tmDemoTaskThree)).sched.get_next_tid ≠ 3) :=
  ⟨⟨by decide, by decide, by decide⟩,
   c7_exited_never_selected 3 true tmDemoTaskThree
     [TM.Op.unblockOp 8, TM.Op.blockOp 2, TM.Op.releaseOp 2, TM.Op.preemptOp]
     (by decide) (by decide) (by decide)⟩

/-- C7 counterexample to the claim as stated: task 3 exits from
`tmDemoTaskThree`, then `release({3})` (mask `0b1000`) re-activates its bit
and the very next scheduling decision selects task 3 again — exited tasks
are re-releasable through `release`. -/
theorem c7_release_reselects_counterexample :
    tmDemoTaskThree.sched.curr_tid = 3
    ∧ (TM.run [TM.Op.releaseOp 8]
        (TM.task_exit true tmDemoTaskThree)).sched.get_next_tid = 3 := by
  decide

/-!
C8: the `started` flag of the tasks.rs variant.
-/

/-- `context_switch` always leaves `started` true and bumps the switch
counter by exactly one. -/
theorem tk_context_switch_started (curr next : Nat) (s : TKState) :
    (TK.context_switch curr next s).sched.started = true
    ∧ (TK.context_switch curr next s).switch_count = s.switch_count + 1 := by
  unfold TK.context_switch
  split <;> simp_all

/-- `preempt` preserves the correspondence between `started` and the switch
counter. -/
theorem tk_preempt_started_eq (s : TKState)
    (h : s.sched.started = decide (0 < s.switch_count)) :
    ((TK.preempt s).2).sched.started
      = decide (0 < ((TK.preempt s).2).switch_count) := by
  unfold TK.preempt
  split
  · split
    · have hc := tk_context_switch_started s.sched.curr_tid s.sched.get_next_tid s
      show (TK.context_switch s.sched.curr_tid s.sched.get_next_tid s).sched.started
        = decide (0 < (TK.context_switch s.sched.curr_tid s.sched.get_next_tid s).switch_count)
      rw [hc.1, hc.2]
      simp
    · exact h
  · exact h

/-- `Scheduler::create_task` never touches the control flags or the current
task id. -/
theorem scheduler_create_task_flags {sc sc' : Scheduler} {p l : Nat}
    (h : sc.create_task p l = Except.ok sc') :
    sc'.started = sc.started ∧ sc'.is_running = sc.is_running
    ∧ sc'.curr_tid = sc.curr_tid := by
  unfold Scheduler.create_task at h
  split at h
  · cases h
  · split at h
    · split at h
      · cases h
      · cases h; exact ⟨rfl, rfl, rfl⟩
    · cases h

/-- Every single tasks.rs operation preserves the correspondence between
`started` and the switch counter. -/
theorem tk_step_started_eq (op : TK.Op) (s : TKState)
    (h : s.sched.started = decide (0 < s.switch_count)) :
    (TK.step op s).sched.started = decide (0 < (TK.step op s).switch_count) := by
  cases op with
  | scheduleOp priv =>
    cases priv
    · exact h
    · exact tk_preempt_started_eq s h
  | preemptOp => exact tk_preempt_started_eq s h
  | startKernelOp priv =>
    cases priv
    · exact h
    · exact tk_preempt_started_eq
        { s with timer_armed := true, sched := s.sched.start_kernel } h
  | createTaskOp priv p l =>
    show ((TK.create_task priv p l s).2).sched.started
      = decide (0 < ((TK.create_task priv p l s).2).switch_count)
    unfold TK.create_task
    cases hres : priv_execute priv (s.sched.create_task p l) with
    | error e => exact h
    | ok sched' =>
      cases priv with
      | false => cases hres
      | true =>
        have := scheduler_create_task_flags hres
        show sched'.started = decide (0 < s.switch_count)
        rw [this.1]; exact h
  | blockOp m => exact h
  | unblockOp m => exact h
  | releaseOp m => exact h
  | taskExitOp priv =>
    cases priv
    · exact h
    · exact tk_preempt_started_eq
        { s with sched := { s.sched with
            active_tasks := s.sched.active_tasks
              &&& not32 (1 <<< s.sched.curr_tid) } } h
  | enablePreemptionOp => exact h
  | disablePreemptionOp => exact h

/-- Every single tasks.rs operation can only grow the switch counter. -/
theorem tk_step_count_mono (op : TK.Op) (s : TKState) :
    s.switch_count ≤ (TK.step op s).switch_count := by
  have hpre : ∀ s' : TKState, s'.switch_count ≤ ((TK.preempt s').2).switch_count := by
    intro s'
    unfold TK.preempt
    split
    · split
      · have hc := tk_context_switch_started s'.sched.curr_tid s'.sched.get_next_tid s'
        show s'.switch_count
          ≤ (TK.context_switch s'.sched.curr_tid s'.sched.get_next_tid s').switch_count
        rw [hc.2]; omega
      · exact Nat.le_refl _
    · exact Nat.le_refl _
  cases op with
  | scheduleOp priv => cases priv
                       · exact Nat.le_refl _
                       · exact hpre s
  | preemptOp => exact hpre s
  | startKernelOp priv =>
    cases priv
    · exact Nat.le_refl _
    · exact hpre { s with timer_armed := true, sched := s.sched.start_kernel }
  | createTaskOp priv p l =>
    show s.switch_count ≤ ((TK.create_task priv p l s).2).switch_count
    unfold TK.create_task
    cases hres : priv_execute priv (s.sched.create_task p l) with
    | error e => exact Nat.le_refl _
    | ok sched' => exact Nat.le_refl _
  | blockOp m => exact Nat.le_refl _
  | unblockOp m => exact Nat.le_refl _
  | releaseOp m => exact Nat.le_refl _
  | taskExitOp priv =>
    cases priv
    · exact Nat.le_refl _
    · exact hpre { s with sched := { s.sched with
        active_tasks := s.sched.active_tasks
          &&& not32 (1 <<< s.sched.curr_tid) } }
  | enablePreemptionOp => exact Nat.le_refl _
  | disablePreemptionOp => exact Nat.le_refl _

/-- The correspondence between `started` and the switch counter holds along
every run. -/
theorem tk_run_started_eq (ops : List TK.Op) (s : TKState)
    (h : s.sched.started = decide (0 < s.switch_count)) :
    (TK.run ops s).sched.started = decide (0 < (TK.run ops s).switch_count) := by
  induction ops generalizing s with
  | nil => exact h
  | cons op rest ih =>
    show (TK.run rest (TK.step op s)).sched.started
      = decide (0 < (TK.run rest (TK.step op s)).switch_count)
    exact ih (TK.step op s) (tk_step_started_eq op s h)

/-- C8: from the freshly initialised scheduler, along every reachable
sequence of tasks.rs operations, `started` is true exactly when at least
one context switch has been performed; and no operation ever decreases the
context-switch count.  Together these say `started` flips false→true at
the first context switch and never transitions back. -/
theorem c8_started_monotone_once :
    (∀ (is_preemptive : Bool) (ops : List TK.Op),
        (TK.run ops (TK.init_state is_preemptive)).sched.started
          = decide (0 < (TK.run ops (TK.init_state is_preemptive)).switch_count))
    ∧ (∀ (op : TK.Op) (s : TKState),
        s.switch_count ≤ (TK.step op s).switch_count) :=
  ⟨fun p ops => tk_run_started_eq ops (TK.init_state p) rfl,
   tk_step_count_mono⟩

/-!
C9: divergence of `start_kernel`.
-/

/-- C9 (amended): the task_management.rs `start_kernel` never returns — its
body `loop { preempt(); }` produces no result at any iteration count — but
the tasks.rs `start_kernel` does return to its caller: on the privileged
path it always hands back `Ok(())`. -/
theorem c9_start_kernel_divergence :
    (∀ (fuel : Nat) (s : TMState), TM.start_kernel_fuel fuel s = none)
    ∧ (∀ s : TKState, (TK.start_kernel true s).1 = Except.ok ()) := by
  constructor
  · intro fuel
    induction fuel with
    | zero => intro s; rfl
    | succ n ih => intro s; exact ih (TM.preempt s)
  · intro s
    show (TK.preempt { s with
      timer_armed := true, sched := s.sched.start_kernel }).1 = Except.ok ()
    unfold TK.preempt
    split
    · split <;> rfl
    · rfl

/-- C9 counterexample to the claim as stated: invoked on the freshly
initialised state, the tasks.rs `start_kernel` arms the timer, starts the
scheduler, performs the first dispatch — and then returns `Ok(())` to its
caller instead of diverging. -/
theorem c9_tasks_start_kernel_returns_counterexample :
    (TK.start_kernel true (TK.init_state true)).1 = Except.ok ()
    ∧ (TK.start_kernel true (TK.init_state true)).2.timer_armed = true
    ∧ (TK.start_kernel true (TK.init_state true)).2.sched.is_running = true :=
  ⟨rfl, rfl, rfl⟩

end Harsark
